import Mathlib

/-!
Formal model of the PhishGuard content-risk scoring engine.

The definitions below are a shallow embedding of the JavaScript sources:
`scripts/scanner.js` (URL and sender analysis), `utils/helpers.js`
(string helpers, Levenshtein distance, risk banding), `utils/constants.js`
(pattern tables) and the current `ai-engine.js` revision (text analysis,
category detection, explanation generation, orchestration), together with
the runner shims that install the fallback implementations of
`calibrateScore`, `getAdaptiveWeights` and `fuzzyMatch`.

JavaScript strings are modelled as Lean `String` (a list of characters);
JS numbers that hold integer scores are modelled as `Nat`, the fractional
calibration/aggregation arithmetic as `Rat`, and `Math.round` as
`Int.floor (q + 1/2)` (round half up, the JS behaviour).  Host primitives
that are not part of the repository (the WHATWG `new URL(...)` hostname
parser behind `getDomain`, and the pure PII-redaction transform
`anonymizeText`) are passed as explicit function parameters, so every
theorem quantifies over them.
-/

/-- ASCII lower-casing of one character, as `String.prototype.toLowerCase`
acts on the ASCII range (all pattern-table keywords are ASCII). -/
def lowerChar (c : Char) : Char :=
  if 'A' ≤ c ∧ c ≤ 'Z' then Char.ofNat (c.toNat + 32) else c

/-- `toLowerCase` on a whole string. -/
def jsToLower (s : String) : String := ⟨s.data.map lowerChar⟩

def isUpperAZ (c : Char) : Bool := 'A' ≤ c && c ≤ 'Z'

def isLowerAZ (c : Char) : Bool := 'a' ≤ c && c ≤ 'z'

def isLetterAZ (c : Char) : Bool := isUpperAZ c || isLowerAZ c

def isDigitCh (c : Char) : Bool := '0' ≤ c && c ≤ '9'

def isHexDigitCh (c : Char) : Bool :=
  isDigitCh c || ('a' ≤ c && c ≤ 'f') || ('A' ≤ c && c ≤ 'F')

/-- `needle`-in-`haystack` test on character lists: true iff `needle`
occurs as a contiguous run, scanning left to right (JS `String.includes`). -/
def jsIncludesL (needle : List Char) : List Char → Bool
  | [] => needle.isEmpty
  | c :: t => needle.isPrefixOf (c :: t) || jsIncludesL needle t

/-- JS `hay.includes(needle)`. -/
def jsIncludes (hay needle : String) : Bool := jsIncludesL needle.data hay.data

/-- JS `s.endsWith(suf)`. -/
def jsEndsWith (s suf : String) : Bool := suf.data.isSuffixOf s.data

/-- Split a character list at every occurrence of the separator character
(JS `String.split` with a one-character separator). -/
def splitCharL (c : Char) : List Char → List (List Char)
  | [] => [[]]
  | a :: t =>
    if a = c then [] :: splitCharL c t
    else
      match splitCharL c t with
      | [] => [[a]]
      | h :: r => (a :: h) :: r

/-- JS `s.split(c)` for a single-character separator. -/
def jsSplit (s : String) (c : Char) : List String :=
  (splitCharL c s.data).map String.mk

/-- JS `s.substring(0, n)`. -/
def strTake (n : ℕ) (s : String) : String := ⟨s.data.take n⟩

/-- JS `s.trim()`. -/
def jsTrim (s : String) : String :=
  ⟨((s.data.dropWhile Char.isWhitespace).reverse.dropWhile Char.isWhitespace).reverse⟩

/-- Order-preserving deduplication keeping the FIRST occurrence of each
element, the behaviour of `[...new Set(xs)]` in JS. -/
def jsSetDedupGo (seen : List String) : List String → List String
  | [] => []
  | a :: t => if a ∈ seen then jsSetDedupGo seen t else a :: jsSetDedupGo (a :: seen) t

def jsSetDedup (l : List String) : List String := jsSetDedupGo [] l

/-- Concatenation of the images of a list (used to state flag unions). -/
def flatMapL {α β : Type} (f : α → List β) : List α → List β
  | [] => []
  | a :: t => f a ++ flatMapL f t

/-- JS `Math.round` on an exact rational: round half toward positive
infinity. -/
def jsRound (q : ℚ) : ℤ := Int.floor (q + 1 / 2)

/-! ### `helpers.js` — Levenshtein distance

`levenshteinDistance` fills an `(m+1) × (n+1)` table row by row; the
functions below compute exactly those rows.  `levRowGo` walks one row:
its arguments are the remaining characters of the second string, the
diagonal entry `dp[i-1][j-1]`, the rest of the previous row starting at
`dp[i-1][j]`, and the entry just written `dp[i][j-1]`. -/

def levRowGo (c : Char) : List Char → ℕ → List ℕ → ℕ → List ℕ
  | [], _, _, _ => []
  | _ :: _, _, [], _ => []
  | y :: ys, diag, up :: prest, left =>
    let v := min (up + 1) (min (left + 1) (diag + (if c = y then 0 else 1)))
    v :: levRowGo c ys up prest v

/-- One step of the DP: from row `i-1` to row `i`, where `c` is the
`i`-th character of the first string. -/
def levNextRow (c : Char) (ys : List Char) : List ℕ → List ℕ
  | [] => []
  | p0 :: prest => (p0 + 1) :: levRowGo c ys p0 prest (p0 + 1)

def levFold (ys : List Char) : List Char → List ℕ → List ℕ
  | [], row => row
  | c :: cs, row => levFold ys cs (levNextRow c ys row)

/-- `PhishGuardHelpers.levenshteinDistance`: classic unit-cost
insertion/deletion/substitution edit distance, computed by dynamic
programming; the result is the bottom-right table entry `dp[m][n]`. -/
def levenshteinDistance (str1 str2 : String) : ℕ :=
  ((levFold str2.data str1.data (List.range (str2.data.length + 1))).getLast?).getD 0

/-! ### `constants.js` — pattern tables used by the scanner -/

def SUSPICIOUS_TLDS : List String :=
  [".xyz", ".top", ".club", ".online", ".site",
   ".icu", ".buzz", ".tk", ".ml", ".ga",
   ".cf", ".gq", ".win", ".loan", ".click",
   ".link", ".work", ".date", ".racing",
   ".download", ".stream", ".bid"]

def TRUSTED_DOMAINS : List String :=
  ["google.com", "gmail.com", "microsoft.com",
   "outlook.com", "apple.com", "amazon.com",
   "paypal.com", "chase.com", "bankofamerica.com",
   "wellsfargo.com", "usps.com", "fedex.com",
   "ups.com", "irs.gov", "sbi.co.in",
   "hdfcbank.com", "icicibank.com", "rbi.org.in",
   "gov.in", "india.gov.in"]

def TYPOSQUAT_MAP : List (String × List String) :=
  [("google", ["g00gle", "gogle", "googl", "gooogle", "googIe"]),
   ("amazon", ["amaz0n", "amazn", "amazom", "arnazon", "amazón"]),
   ("paypal", ["paypa1", "paypai", "paypaI", "peypal", "paypa"]),
   ("apple", ["app1e", "appie", "appIe", "aple", "appl"]),
   ("microsoft", ["micr0soft", "mircosoft", "microsft", "microsoft"]),
   ("facebook", ["faceb00k", "facebok", "facbook"]),
   ("netflix", ["netf1ix", "netfIix", "netflix"]),
   ("sbi", ["sb1", "sbì"]),
   ("hdfc", ["hdf c", "hdtc"])]

/-- The URL-shortener host list inlined in `scanner.js`. -/
def SHORTENERS : List String :=
  ["bit.ly", "tinyurl.com", "t.co", "goo.gl",
   "ow.ly", "is.gd", "buff.ly", "adf.ly",
   "bl.ink", "lnkd.in", "rb.gy", "shorturl.at",
   "cutt.ly", "t.ly"]

/-- The keyword alternatives of `URL_RED_FLAGS.SUSPICIOUS_PATHS`, each with
the leading slash of the pattern; the `/i` flag is modelled by lower-casing
the URL before the containment test. -/
def SUSPICIOUS_PATH_KEYS : List String :=
  ["/secure", "/login", "/verify", "/update", "/confirm", "/account", "/banking", "/signin"]

/-! ### `URL_RED_FLAGS` regular expressions, as character-list scanners -/

/-- Tail of the `IP_ADDRESS` pattern after `https?://`: four runs of
digits separated by dots; the first three runs must have length 1–3 and be
followed by a literal dot, the last needs at least one digit (the regex
takes at most three of them). -/
def ipGroups : ℕ → List Char → Bool
  | 0, _ => true
  | n + 1, l =>
    let r := (l.takeWhile isDigitCh).length
    let rest := l.dropWhile isDigitCh
    if n = 0 then decide (1 ≤ r)
    else
      decide (1 ≤ r) && decide (r ≤ 3) &&
        (match rest with
         | '.' :: r2 => ipGroups n r2
         | _ => false)

def ipAtPos (l : List Char) : Bool :=
  if "http://".data.isPrefixOf l then ipGroups 4 (l.drop 7)
  else if "https://".data.isPrefixOf l then ipGroups 4 (l.drop 8)
  else false

def scanIP : List Char → Bool
  | [] => false
  | a :: t => ipAtPos (a :: t) || scanIP t

/-- `URL_RED_FLAGS.IP_ADDRESS.test(url)`: the pattern
`https?://d{1,3}.d{1,3}.d{1,3}.d{1,3}` matched anywhere in the URL. -/
def hasIPAddressPattern (url : String) : Bool := scanIP url.data

/-- `URL_RED_FLAGS.SUSPICIOUS_PATHS.test(url)` (case-insensitive). -/
def hasSuspiciousPath (url : String) : Bool :=
  SUSPICIOUS_PATH_KEYS.any (fun k => jsIncludes (jsToLower url) k)

/-- Count of non-overlapping matches of `%[0-9a-f]{2}` (case-insensitive),
i.e. `url.match(/%[0-9a-f]{2}/gi).length`.  A match consumes three
characters; matches can never overlap because the two characters after a
matched `%` are hex digits. -/
def countEncodedGo : List Char → ℕ
  | '%' :: a :: b :: t =>
    if isHexDigitCh a && isHexDigitCh b then 1 + countEncodedGo t
    else countEncodedGo (a :: b :: t)
  | _ :: t => countEncodedGo t
  | [] => 0

def countEncodedChars (url : String) : ℕ := countEncodedGo url.data

/-- `/\d{3,}/.test(s)`: a run of three or more consecutive digits. -/
def hasDigitRunGo : List Char → ℕ → Bool
  | [], _ => false
  | a :: t, run =>
    if isDigitCh a then (decide (2 ≤ run) || hasDigitRunGo t (run + 1))
    else hasDigitRunGo t 0

def hasThreeDigitRun (s : String) : Bool := hasDigitRunGo s.data 0

/-! ### `scanner.js` — URL analysis -/

/-- Result of `analyzeURL`: `{ score, flags }`. -/
structure URLResult where
  score : ℕ
  flags : List String
deriving DecidableEq

/-- Entry of `flaggedURLs`: `{ url, score, flags }` with the URL truncated
for display. -/
structure FlaggedURL where
  url : String
  score : ℕ
  flags : List String
deriving DecidableEq

/-- Result of `analyzeAllURLs`.  When the input list is empty or missing
the source returns an object without a `flaggedURLs` key; since the only
consumer reads it as `urlResult.flaggedURLs || []`, the missing key is
modelled as the empty list. -/
structure URLAggregate where
  score : ℕ
  flags : List String
  urlCount : ℕ
  flaggedURLs : List FlaggedURL
deriving DecidableEq

/-- `PhishScanner._isTrustedDomain`. -/
def isTrustedDomain (domain : String) : Bool :=
  TRUSTED_DOMAINS.any (fun trusted => domain == trusted || jsEndsWith domain ("." ++ trusted))

/-- `PhishScanner._isURLShortener`. -/
def isURLShortener (domain : String) : Bool := SHORTENERS.contains domain

/-- The base part of a domain used by typosquat detection:
`domain.split(".").slice(0, -1).join(".").toLowerCase()`. -/
def typosquatBase (domain : String) : String :=
  jsToLower (String.intercalate "." ((jsSplit domain '.').dropLast))

/-- `PhishScanner._checkTyposquatting`, iterating the typosquat map in
order.  For each reference brand: first the literal containment of any
known fake variant, then, when the base contains the brand's first three
characters, the edit-distance-1-or-2 test.  Returns
`(isTyposquat, intendedDomain)` with `""` standing for the absent
`intendedDomain` of a negative result. -/
def checkTyposquattingGo (base : String) : List (String × List String) → Bool × String
  | [] => (false, "")
  | (real, fakes) :: rest =>
    if fakes.any (fun f => jsIncludes base f) then (true, real)
    else if jsIncludes base (strTake 3 real) &&
        (decide (0 < levenshteinDistance base real) &&
         decide (levenshteinDistance base real ≤ 2)) then (true, real)
    else checkTyposquattingGo base rest

def checkTyposquatting (domain : String) : Bool × String :=
  checkTyposquattingGo (typosquatBase domain) TYPOSQUAT_MAP

/-- `PhishScanner._truncateURL` (default display length 60). -/
def truncateURL (url : String) (maxLength : ℕ) : String :=
  if url.length ≤ maxLength then url else strTake maxLength url ++ "..."

/-- `PhishScanner.analyzeURL`.  The hostname extraction
`PhishGuardHelpers.getDomain` wraps the host `new URL(...)` parser and is
passed in as `getDom`; `getDom url = none` models the `catch` branch.
The ten checks accumulate independent penalties, capped at 100.
`subdomainCount` is `domain.split(".").length - 2` (natural subtraction
agrees with the JS value on the `>= 3` test since the count is at least
`-1` in JS). -/
def analyzeURL (getDom : String → Option String) (url : String) : URLResult :=
  if url = "" then ⟨0, []⟩
  else
    match getDom url with
    | none => ⟨50, ["Invalid or malformed URL"]⟩
    | some domain =>
      if isTrustedDomain domain then ⟨0, ["Verified trusted domain"]⟩
      else
        let ipHit := hasIPAddressPattern url
        let tld := "." ++ (jsSplit domain '.').getLastD ""
        let tldHit := SUSPICIOUS_TLDS.contains tld
        let subdomainCount := (jsSplit domain '.').length - 2
        let subHit := decide (3 ≤ subdomainCount)
        let typo := checkTyposquatting domain
        let shortHit := isURLShortener domain
        let pathHit := hasSuspiciousPath url
        let atHit := jsIncludes url "@"
        let longHit := decide (150 < url.length)
        let encHit := decide (3 < countEncodedChars url)
        let score :=
          (if ipHit then 40 else 0) + (if tldHit then 25 else 0) +
          (if subHit then 20 else 0) + (if typo.1 then 35 else 0) +
          (if shortHit then 15 else 0) + (if pathHit then 15 else 0) +
          (if atHit then 30 else 0) + (if longHit then 10 else 0) +
          (if encHit then 15 else 0)
        let flags :=
          (if ipHit then ["Uses IP address instead of domain name"] else []) ++
          (if tldHit then ["Suspicious domain extension: " ++ tld] else []) ++
          (if subHit then ["Excessive subdomains (" ++ toString subdomainCount ++ " levels deep)"] else []) ++
          (if typo.1 then ["Possible typosquatting: looks like \"" ++ typo.2 ++ "\""] else []) ++
          (if shortHit then ["URL shortener detected — destination hidden"] else []) ++
          (if pathHit then ["URL path contains login/verification keywords"] else []) ++
          (if atHit then ["Contains @ symbol — may redirect to different site"] else []) ++
          (if longHit then ["Unusually long URL"] else []) ++
          (if encHit then ["Contains multiple encoded characters (obfuscation)"] else [])
        ⟨min score 100, flags⟩

/-- Loop state of `analyzeAllURLs`: the worst score so far, the
concatenation of all flags, and the flagged-URL records. -/
structure URLAccum where
  worst : ℕ
  allFlags : List String
  flagged : List FlaggedURL
deriving DecidableEq

/-- One iteration of the `urls.forEach` loop in `analyzeAllURLs`. -/
def urlStep (getDom : String → Option String) (acc : URLAccum) (url : String) : URLAccum :=
  let analysis := analyzeURL getDom url
  let flagged :=
    if 0 < analysis.score then acc.flagged ++ [⟨truncateURL url 60, analysis.score, analysis.flags⟩]
    else acc.flagged
  let worst := if acc.worst < analysis.score then analysis.score else acc.worst
  ⟨worst, acc.allFlags ++ analysis.flags, flagged⟩

/-- `PhishScanner.analyzeAllURLs`: the worst per-URL score, the
first-occurrence deduplicated union of all per-URL flags, the URL count,
and one record per URL that scored above zero.  A missing (`undefined`)
URL list behaves exactly like the empty list in the source and is
modelled as `[]`. -/
def analyzeAllURLs (getDom : String → Option String) (urls : List String) : URLAggregate :=
  if urls = [] then ⟨0, [], 0, []⟩
  else
    let acc := urls.foldl (urlStep getDom) ⟨0, [], []⟩
    ⟨acc.worst, jsSetDedup acc.allFlags, urls.length, acc.flagged⟩

/-! ### `scanner.js` — sender analysis -/

structure SenderResult where
  score : ℕ
  flags : List String
deriving DecidableEq

/-- The free consumer email provider list inlined in `analyzeSender`. -/
def FREE_PROVIDERS : List String :=
  ["gmail.com", "yahoo.com", "hotmail.com",
   "outlook.com", "aol.com", "mail.com",
   "protonmail.com", "yandex.com"]

/-- The organisational keyword list inlined in `analyzeSender`. -/
def ORG_KEYWORDS : List String :=
  ["bank", "paypal", "amazon", "microsoft",
   "apple", "google", "irs", "government",
   "support", "security", "admin"]

/-- The company-name list inlined in `_checkSenderMismatch`. -/
def COMPANY_NAMES : List String :=
  ["amazon", "paypal", "apple", "microsoft", "google",
   "netflix", "chase", "wells fargo", "bank of america",
   "sbi", "hdfc", "icici", "rbi"]

/-- JS `s.replace(/[^a-z]/g, '')`: keep only lowercase ASCII letters. -/
def stripNonLetters (s : String) : String := ⟨s.data.filter isLowerAZ⟩

/-- `PhishScanner._checkSenderMismatch` (the unused `emailUser` local of
the source is omitted; only `isMismatch` of the result object is ever
consumed, so the function returns that Boolean). -/
def checkSenderMismatch (email displayName : String) : Bool :=
  let displayLower := stripNonLetters (jsToLower displayName)
  let emailDomain := jsToLower ((jsSplit ((jsSplit email '@').getD 1 "") '.').getD 0 "")
  COMPANY_NAMES.any (fun company =>
    let companyClean : String := ⟨company.data.filter (fun c => c != ' ')⟩
    jsIncludes displayLower companyClean && !jsIncludes emailDomain companyClean)

/-- `PhishScanner.analyzeSender`.  The empty string models a missing
(`undefined`) sender address or display name, which the source detects by
falsiness. -/
def analyzeSender (senderEmail displayName : String) : SenderResult :=
  if senderEmail = "" then ⟨0, []⟩
  else
    let email := jsTrim (jsToLower senderEmail)
    let domain := (jsSplit email '@').getD 1 ""
    if domain = "" then ⟨30, ["Invalid sender email format"]⟩
    else
      let mismatchHit := displayName != "" && checkSenderMismatch email displayName
      let freeHit := FREE_PROVIDERS.contains domain && displayName != "" &&
        ORG_KEYWORDS.any (fun k => jsIncludes (jsToLower displayName) k)
      let senderTLD := "." ++ (jsSplit domain '.').getLastD ""
      let tldHit := SUSPICIOUS_TLDS.contains senderTLD
      let domainWithoutTLD := String.intercalate "." ((jsSplit domain '.').dropLast)
      let numHit := hasThreeDigitRun domainWithoutTLD
      let longHit := decide (30 < domain.length)
      let score :=
        (if mismatchHit then 30 else 0) + (if freeHit then 35 else 0) +
        (if tldHit then 20 else 0) + (if numHit then 15 else 0) +
        (if longHit then 10 else 0)
      let flags :=
        (if mismatchHit then
          ["Sender mismatch: displays as \"" ++ displayName ++ "\" but email is " ++ email] else []) ++
        (if freeHit then
          ["\"" ++ displayName ++ "\" using free email (" ++ domain ++ ") — likely impersonation"] else []) ++
        (if tldHit then ["Sender domain uses suspicious extension: " ++ senderTLD] else []) ++
        (if numHit then ["Sender domain contains excessive numbers"] else []) ++
        (if longHit then ["Unusually long sender domain"] else [])
      ⟨min score 100, flags⟩

/-! ### `constants.js` — keyword tables for the text analyzer -/

def URGENCY_KEYWORDS : List String :=
  ["act now", "act immediately", "urgent action required",
   "immediate attention", "expires today", "last chance",
   "limited time", "only hours left", "deadline",
   "suspend", "suspended", "will be closed",
   "within 24 hours", "within 48 hours",
   "account will be locked", "account compromised",
   "unauthorized access", "unusual activity",
   "verify immediately", "confirm your identity",
   "failure to respond", "legal action"]

def THREAT_KEYWORDS : List String :=
  ["legal action", "police report", "court order",
   "arrest warrant", "criminal charges", "lawsuit",
   "penalty", "fine", "prosecution",
   "account terminated", "permanently banned",
   "report to authorities", "federal investigation"]

def FINANCIAL_KEYWORDS : List String :=
  ["congratulations you\x27ve won", "you are selected",
   "claim your prize", "lottery winner",
   "million dollars", "inheritance",
   "beneficiary", "unclaimed funds",
   "wire transfer", "western union", "moneygram",
   "bitcoin payment", "cryptocurrency",
   "investment opportunity", "guaranteed returns",
   "double your money", "risk free",
   "credit card required", "ssn", "social security",
   "bank account details", "routing number",
   "pin number", "cvv"]

def IMPERSONATION_KEYWORDS : List String :=
  ["dear customer", "dear user", "dear member",
   "valued customer", "account holder",
   "we have detected", "we noticed",
   "your account has been", "as per our records",
   "security department", "fraud department",
   "technical support", "helpdesk",
   "official notice", "important notification"]

def ACTION_KEYWORDS : List String :=
  ["click here", "click below", "click the link",
   "log in here", "sign in", "verify your account",
   "update your information", "confirm your details",
   "download attachment", "open attached",
   "fill out the form", "submit your",
   "reply with your", "send your details",
   "call this number", "contact us immediately"]

def HINGLISH_KEYWORDS : List String :=
  ["aapka account", "aapka khata",
   "block ho jayega", "band ho jayega",
   "kyc update", "kyc verification",
   "aadhar card", "aadhaar",
   "pan card link", "pan card update",
   "upi id", "paytm kyc",
   "phonepe", "google pay",
   "sbi bank", "rbi notice",
   "income tax notice", "gst notice",
   "custom duty", "parcel roka gaya",
   "lottery jeet", "prize jeeta",
   "crore rupees", "lakh rupees"]

def GRAMMAR_INDICATORS : List String :=
  ["kindly do the needful", "revert back",
   "please to", "we was", "you has been",
   "your been selected", "informations",
   "dears", "sir/madam", "respected sir",
   "aborting your", "aborting the transaction"]

/-- `SCAM_CONSTANTS.BRAND_KEYWORDS` is referenced by the tenth text check
but is nowhere defined in `constants.js`; the `undefined` table behaves as
the empty keyword list inside `_findKeywordMatches` (`keywords || []`), so
the domain-mismatch check can never fire with the shipped tables. -/
def BRAND_KEYWORDS : List String := []

/-! ### `ai-engine.js` — text analysis -/

/-- A text-analyzer flag `{ code, message }`. -/
structure TextFlag where
  code : String
  message : String
deriving DecidableEq

/-- Result of `analyzeText`: `{ score, flags, confidence }`. -/
structure TextResult where
  score : ℕ
  flags : List TextFlag
  confidence : ℚ
deriving DecidableEq

/-- `PhishAIEngine._findKeywordMatches` with the runner's `fuzzyMatch`
fallback, which is plain substring containment. -/
def findKeywordMatches (text : String) (keywords : List String) : List String :=
  if text = "" then []
  else keywords.filter (fun keyword => jsIncludes (jsToLower text) (jsToLower keyword))

/-- `PhishAIEngine._nlpPhishingScore`: the safe stub returns 0 in every
branch (no tokenizer is shipped, so model inference is always skipped). -/
def nlpPhishingScore (_text : String) : ℚ := 0

/-- The `ratio` component of `PhishAIEngine._calculateCapsRatio`
(the only field the caller reads). -/
def calcCapsInfo (text : String) : ℚ :=
  if text == "" || decide (text.length < 5) then 0
  else
    let letters := text.data.filter isLetterAZ
    if letters.length = 0 then 0
    else ((letters.filter isUpperAZ).length : ℚ) / (letters.length : ℚ)

/-- Count of maximal runs of two or more copies of `c`
(JS `text.match(/!{2,}/g).length` and the `?` analogue): a run is counted
exactly when its second character is seen. -/
def countRunsGo (c : Char) : List Char → ℕ → ℕ
  | [], _ => 0
  | a :: t, runLen =>
    if a = c then (if runLen = 1 then 1 else 0) + countRunsGo c t (runLen + 1)
    else countRunsGo c t 0

def countRuns (c : Char) (l : List Char) : ℕ := countRunsGo c l 0

/-- `PhishAIEngine.analyzeText`.  `anonymize` is the PII-redaction
transform `PhishGuardHelpers.anonymizeText` (a pure string-to-string
function applied to a working copy; its internals are irrelevant to the
checks, which all run on the redacted text).  The ten scored checks run on
the lower-cased redacted subject+body (capitalization and punctuation run
on the raw body), each check pushes at most one flag, the total is capped
at 100, and the confidence is the number of fired checks over 10. -/
def analyzeText (anonymize : String → String) (body subject senderDomain : String) : TextResult :=
  let cleanBody := anonymize body
  let cleanSubject := anonymize subject
  let fullText := jsToLower (cleanSubject ++ " " ++ cleanBody)
  if jsTrim fullText = "" then ⟨0, [], 0⟩
  else
    let nlpScore := nlpPhishingScore fullText
    let nlpHit := decide ((3 : ℚ) / 5 < nlpScore)
    let urgencyMatches := findKeywordMatches fullText URGENCY_KEYWORDS
    let threatMatches := findKeywordMatches fullText THREAT_KEYWORDS
    let financialMatches := findKeywordMatches fullText FINANCIAL_KEYWORDS
    let impersonationMatches := findKeywordMatches fullText IMPERSONATION_KEYWORDS
    let actionMatches := findKeywordMatches fullText ACTION_KEYWORDS
    let hinglishMatches := findKeywordMatches fullText HINGLISH_KEYWORDS
    let grammarMatches := findKeywordMatches fullText GRAMMAR_INDICATORS
    let capsHit := decide ((3 : ℚ) / 10 < calcCapsInfo body) && decide (50 < body.length)
    let puncHit := decide (3 ≤ countRuns '!' body.data + countRuns '?' body.data)
    let brandMatches := findKeywordMatches fullText BRAND_KEYWORDS
    let domainMismatchHit := decide (0 < brandMatches.length) && senderDomain != "" &&
      brandMatches.any (fun brand => !jsIncludes senderDomain (jsToLower brand))
    let score :=
      (if nlpHit then (jsRound (nlpScore * 40)).toNat else 0) +
      (if 0 < urgencyMatches.length then min (urgencyMatches.length * 12) 30 else 0) +
      (if 0 < threatMatches.length then min (threatMatches.length * 15) 30 else 0) +
      (if 0 < financialMatches.length then min (financialMatches.length * 10) 27 else 0) +
      (if 2 ≤ impersonationMatches.length then 15 else 0) +
      (if 0 < actionMatches.length then min (actionMatches.length * 8) 25 else 0) +
      (if 0 < hinglishMatches.length then min (hinglishMatches.length * 10) 20 else 0) +
      (if 0 < grammarMatches.length then min (grammarMatches.length * 8) 10 else 0) +
      (if capsHit then 10 else 0) + (if puncHit then 8 else 0) +
      (if domainMismatchHit then 20 else 0)
    let flags :=
      (if nlpHit then
        [⟨"NLP_MODEL", "AI model flagged this as phishing with " ++
          toString (jsRound (nlpScore * 100)) ++ "% confidence"⟩] else []) ++
      (if 0 < urgencyMatches.length then
        [⟨"URGENCY", "Urgency tactics: \"" ++ String.intercalate ", " urgencyMatches ++ "\""⟩] else []) ++
      (if 0 < threatMatches.length then
        [⟨"THREAT", "Threatening language: \"" ++ String.intercalate ", " threatMatches ++ "\""⟩] else []) ++
      (if 0 < financialMatches.length then
        [⟨"FINANCIAL", "Financial bait: \"" ++ String.intercalate ", " financialMatches ++ "\""⟩] else []) ++
      (if 2 ≤ impersonationMatches.length then
        [⟨"IMPERSONATION", "Generic impersonation language (e.g., \x27Dear Customer\x27)"⟩] else []) ++
      (if 0 < actionMatches.length then
        [⟨"ACTION", "Pushes you to act: \"" ++ String.intercalate ", " actionMatches ++ "\""⟩] else []) ++
      (if 0 < hinglishMatches.length then
        [⟨"HINGLISH", "Regional scam pattern: \"" ++ String.intercalate ", " hinglishMatches ++ "\""⟩] else []) ++
      (if 0 < grammarMatches.length then
        [⟨"GRAMMAR", "Contains grammar errors common in scam emails"⟩] else []) ++
      (if capsHit then
        [⟨"CAPS", "Excessive use of CAPITAL LETTERS (shouting tactic)"⟩] else []) ++
      (if puncHit then
        [⟨"PUNCTUATION", "Excessive punctuation (!! or ??) — common in scams"⟩] else []) ++
      (if domainMismatchHit then
        [⟨"DOMAIN_MISMATCH", "Mentions \"" ++ String.intercalate ", " brandMatches ++
          "\" but sender domain is " ++ senderDomain⟩] else [])
    ⟨min score 100, flags, (flags.length : ℚ) / 10⟩

/-! ### `constants.js` — scam categories and `ai-engine.js` category
detection -/

/-- A static scam category.  The shipped table defines only `label`,
`icon` and `keywords`; `weights`, `severity` and `minMatch` are absent on
every entry, which the engine reads through `cat.weights?.[kw] || 1`,
`cat.severity || 0` and `cat.minMatch || 2`.  The absent fields are
modelled as empty list / `none`. -/
structure Category where
  key : String
  label : String
  icon : String
  keywords : List String
  weights : List (String × ℕ)
  severity : Option ℕ
  minMatch : Option ℕ
deriving DecidableEq

def SCAM_CATEGORIES : List Category :=
  [⟨"BANKING", "Banking/Financial Scam", "🏦",
    ["bank", "account", "credit", "debit", "transaction", "payment", "transfer"], [], none, none⟩,
   ⟨"DELIVERY", "Package/Delivery Scam", "📦",
    ["package", "delivery", "shipment", "tracking", "fedex", "ups", "amazon", "order"], [], none, none⟩,
   ⟨"JOB", "Job/Employment Scam", "💼",
    ["job offer", "work from home", "earn money", "hiring", "salary", "income", "opportunity"], [], none, none⟩,
   ⟨"GOVERNMENT", "Government Impersonation", "🏛️",
    ["irs", "tax", "government", "court", "legal", "police", "federal", "social security"], [], none, none⟩,
   ⟨"LOTTERY", "Lottery/Prize Scam", "🎰",
    ["winner", "prize", "lottery", "congratulations", "selected", "lucky", "claim"], [], none, none⟩,
   ⟨"ROMANCE", "Romance/Dating Scam", "💕",
    ["lonely", "love", "relationship", "dating", "beautiful", "handsome", "meet me"], [], none, none⟩,
   ⟨"TECH_SUPPORT", "Tech Support Scam", "🖥️",
    ["virus detected", "computer infected", "tech support", "microsoft", "apple support", "security alert"], [], none, none⟩,
   ⟨"CRYPTO", "Cryptocurrency Scam", "🪙",
    ["bitcoin", "ethereum", "crypto", "blockchain", "nft", "token", "wallet", "mining"], [], none, none⟩]

/-- JS `v || d` for an optional number whose value 0 is falsy. -/
def jsOrNat (v : Option ℕ) (d : ℕ) : ℕ :=
  match v with
  | none => d
  | some 0 => d
  | some k => k

/-- The corroborating-signal snapshot stored on a category match. -/
structure CategorySignals where
  textScore : ℕ
  urlScore : ℕ
  senderScore : ℕ
  urlFlags : List String
  senderFlags : List String
deriving DecidableEq

/-- The `bestCategory` object of `_detectCategory`: the category spread
together with its matched keywords and accumulated match score. -/
structure BestCategory where
  label : String
  icon : String
  keywords : List String
  weights : List (String × ℕ)
  severity : Option ℕ
  minMatch : Option ℕ
  matchedKeywords : List String
  matchScore : ℕ
deriving DecidableEq

/-- The returned category match: `bestCategory` plus confidence and the
signal snapshot. -/
structure CategoryMatch where
  label : String
  icon : String
  keywords : List String
  weights : List (String × ℕ)
  severity : Option ℕ
  minMatch : Option ℕ
  matchedKeywords : List String
  matchScore : ℕ
  confidence : ℚ
  signals : CategorySignals
deriving DecidableEq

/-- The weighted keyword match score of one category against the
lower-cased message text (`cat.keywords.reduce(...)` with the runner's
substring `fuzzyMatch` and default keyword weight 1). -/
def categoryMatchScore (lowerText : String) (cat : Category) : ℕ :=
  cat.keywords.foldl
    (fun sum kw => if jsIncludes lowerText kw then sum + jsOrNat (cat.weights.lookup kw) 1 else sum) 0

/-- One iteration of the category loop of `_detectCategory`.  The source
tracks `bestCategory` and `bestMatchScore` in two always-synchronized
variables; here the pair is the single optional `best` (score 0 and
severity 0 when still null). -/
def detectCategoryStep (lowerText : String) (best : Option BestCategory) (cat : Category) :
    Option BestCategory :=
  let matchScore := categoryMatchScore lowerText cat
  let bestScore := match best with | some b => b.matchScore | none => 0
  let bestSev := match best with | some b => b.severity.getD 0 | none => 0
  if decide (bestScore < matchScore) ||
      (matchScore == bestScore && decide (bestSev < cat.severity.getD 0)) then
    some ⟨cat.label, cat.icon, cat.keywords, cat.weights, cat.severity, cat.minMatch,
      cat.keywords.filter (fun kw => jsIncludes lowerText kw), matchScore⟩
  else best

/-- `PhishAIEngine._detectCategory` on the raw message body.  A match is
returned only when the best accumulated score reaches the effective
threshold (`minMatch || 2`, lowered by one when the URL or sender analyzer
produced at least one flag) or when exactly one keyword matched and the
text score alone is at least 50. -/
def detectCategory (text : String) (textResult : TextResult) (urlResult : URLAggregate)
    (senderResult : SenderResult) : Option CategoryMatch :=
  if text = "" then none
  else
    let lowerText := jsToLower text
    match SCAM_CATEGORIES.foldl (detectCategoryStep lowerText) none with
    | none => none
    | some b =>
      let threshold := jsOrNat b.minMatch 2
      let hasExtraSignals := !urlResult.flags.isEmpty || !senderResult.flags.isEmpty
      let effectiveThreshold := if hasExtraSignals then threshold - 1 else threshold
      if decide (effectiveThreshold ≤ b.matchScore) ||
          (b.matchScore == 1 && decide (50 ≤ textResult.score)) then
        some ⟨b.label, b.icon, b.keywords, b.weights, b.severity, b.minMatch,
          b.matchedKeywords, b.matchScore,
          (b.matchScore : ℚ) / (b.keywords.length : ℚ),
          ⟨textResult.score, urlResult.score, senderResult.score,
           urlResult.flags, senderResult.flags⟩⟩
      else none

/-! ### `ai-engine.js` — explanation generation -/

/-- Metadata snapshot of an explanation.  In the no-flag branch the source
object carries no `severity` key; the absent key is modelled as `none`. -/
structure ExplMetadata where
  textScore : ℕ
  urlScore : ℕ
  senderScore : ℕ
  categoryConfidence : Option ℚ
  severity : Option ℕ
deriving DecidableEq

structure Explanation where
  summary : String
  details : List String
  educationalTips : List String
  metadata : ExplMetadata
deriving DecidableEq

/-- JS `v || null` on an optional rational (0 is falsy). -/
def jsFalsyRatOpt (v : Option ℚ) : Option ℚ :=
  match v with
  | none => none
  | some q => if q = 0 then none else some q

/-- JS `v || null` on an optional natural (0 is falsy). -/
def jsFalsyNatOpt (v : Option ℕ) : Option ℕ :=
  match v with
  | none => none
  | some 0 => none
  | some k => some k

def EDUCATIONAL_TIPS : List (String × String) :=
  [("BANKING", "Real banks NEVER ask for passwords, PINs, or OTPs via email."),
   ("DELIVERY", "Check your actual order history on the retailer\x27s official site."),
   ("JOB", "Legitimate employers never ask for money upfront."),
   ("GOVERNMENT", "Government agencies never threaten immediate arrest via email."),
   ("LOTTERY", "You can\x27t win a lottery you never entered."),
   ("ROMANCE", "Never send money to someone you\x27ve only met online."),
   ("TECH_SUPPORT", "Microsoft, Apple, and Google will never email you about viruses."),
   ("CRYPTO", "No legitimate investment guarantees returns.")]

/-- `Object.entries(SCAM_CONSTANTS.SCAM_CATEGORIES).find(...)`: the key of
the category whose label matches. -/
def findCategoryKey (label : String) : Option String :=
  (SCAM_CATEGORIES.find? (fun c => c.label == label)).map (fun c => c.key)

/-- The summary branch ladder of `_generateExplanation` (reached only when
at least one flag exists). -/
def explanationSummary (category : Option CategoryMatch) (adjustedScore : ℤ)
    (hasStrong : Bool) : String :=
  if decide (70 ≤ adjustedScore) && hasStrong then
    "⚠️ HIGH RISK: " ++
      ((match category with | some c => c.label | none => "Potential Scam") ++ " Detected")
  else if decide (70 ≤ adjustedScore) then
    "⚡ CAUTION: Suspicious text patterns detected, but no strong sender/URL evidence"
  else if decide (30 ≤ adjustedScore) then "⚡ CAUTION: Some suspicious elements found"
  else "✅ LOW RISK: Minor concerns detected"

/-- `PhishAIEngine._generateExplanation`.  URL and sender flags are plain
strings, so the `f.code === "SUSPICIOUS_URL"` and `f.code === "MISMATCH"`
tip conditions compare `undefined` with a string and never hold; the
corresponding tip pieces are therefore the constant empty list. -/
def generateExplanation (textResult : TextResult) (urlResult : URLAggregate)
    (senderResult : SenderResult) (category : Option CategoryMatch) : Explanation :=
  let allFlagsCount := textResult.flags.length + urlResult.flags.length + senderResult.flags.length
  if allFlagsCount = 0 then
    ⟨"✅ SAFE: No scam indicators detected.", [],
     ["Always verify unexpected requests through official channels."],
     ⟨textResult.score, urlResult.score, senderResult.score,
      jsFalsyRatOpt (category.map (fun c => c.confidence)), none⟩⟩
  else
    let totalScore := jsRound ((textResult.score : ℚ) * 0.4 + (urlResult.score : ℚ) * 0.4 +
      (senderResult.score : ℚ) * 0.2)
    let hasStrongNonTextSignals := decide (20 < urlResult.score) || decide (15 < senderResult.score)
    let severityBoost : ℕ := (category.map (fun c => c.severity.getD 0)).getD 0
    let adjustedScore := totalScore + (severityBoost : ℤ) * 10
    let summary := explanationSummary category adjustedScore hasStrongNonTextSignals
    let flagTips :=
      (if textResult.flags.any (fun f => f.code == "URGENCY") then
        ["Scammers often pressure you with urgency. Pause and verify before acting."] else []) ++
      (if textResult.flags.any (fun f => f.code == "THREAT") then
        ["Threatening language is a scare tactic. Legitimate organizations don’t threaten arrest or fines via email."] else []) ++
      ([] : List String) ++ -- url flags are strings: f.code is undefined, never "SUSPICIOUS_URL"
      ([] : List String)    -- sender flags are strings: f.code is undefined, never "MISMATCH"
    let categoryKey := match category with | some c => findCategoryKey c.label | none => none
    let details :=
      (textResult.flags.map (fun f => f.message) ++ urlResult.flags ++ senderResult.flags) ++
      (match category with
       | some c => ["Category keywords: " ++ String.intercalate ", " c.matchedKeywords]
       | none => [])
    let educationalTips :=
      if 0 < flagTips.length then flagTips
      else match categoryKey with
        | some k => [(EDUCATIONAL_TIPS.lookup k).getD ""]
        | none => ["When in doubt, contact the organization directly using their official website or phone number."]
    ⟨summary, details, educationalTips,
     ⟨textResult.score, urlResult.score, senderResult.score,
      jsFalsyRatOpt (category.map (fun c => c.confidence)),
      jsFalsyNatOpt (category.bind (fun c => c.severity))⟩⟩

/-! ### `helpers.js` risk banding, the runner's fallback hooks, and the
`ai-engine.js` orchestrator -/

structure RiskLevel where
  label : String
  color : String
deriving DecidableEq

/-- `PhishGuardHelpers.formatRiskResult` (only the `label`/`color`
components are consumed by the orchestrator). -/
def formatRiskResult (score : ℤ) : RiskLevel :=
  if score ≤ 29 then ⟨"Safe", "#22c55e"⟩
  else if score ≤ 69 then ⟨"Caution", "#f59e0b"⟩
  else ⟨"High Risk", "#ef4444"⟩

structure Weights where
  TEXT : ℚ
  URL : ℚ
  SENDER : ℚ
deriving DecidableEq

/-- The runner's fallback `calibrateScore`: the identity transform. -/
def calibrateScore (score : ℚ) (_category : String) : ℚ := score

/-- The runner's fallback `getAdaptiveWeights`: always `null`, so the
orchestrator uses the default weights. -/
def getAdaptiveWeights (_tenantId : String) : Option Weights := none

def defaultWeights : Weights := ⟨0.35, 0.40, 0.25⟩

/-- Step 4 of `analyze`: normalize each component score to `[0,1]`,
calibrate per component, weight, and scale back to 0–100 with rounding. -/
def aggregateScore (calib : ℚ → String → ℚ) (weights : Weights)
    (textScore urlScore senderScore : ℕ) : ℤ :=
  let calibratedText := calib ((textScore : ℚ) / 100) "TEXT"
  let calibratedURL := calib ((urlScore : ℚ) / 100) "URL"
  let calibratedSender := calib ((senderScore : ℚ) / 100) "SENDER"
  let rawScore := calibratedText * weights.TEXT + calibratedURL * weights.URL +
    calibratedSender * weights.SENDER
  jsRound (rawScore * 100)

/-- The `emailData` record consumed by `analyze`.  The empty string (and
the empty URL list) model the absent optional fields, which the source
distinguishes only by falsiness. -/
structure ScanInput where
  body : String
  subject : String
  sender : String
  displayName : String
  urls : List String
  tenantId : String
deriving DecidableEq

/-- The impure per-call environment of `analyze`: the generated scan id
(`generateScanId` reads the clock and a random source) and the two clock
readings behind `processingTime` and `timestamp`. -/
structure ScanEnv where
  scanId : String
  processingTime : ℕ
  timestamp : ℕ
deriving DecidableEq

/-- The `details` sub-object of a scan result. -/
structure ScanDetails where
  textScore : ℕ
  urlScore : ℕ
  senderScore : ℕ
  textFlags : List TextFlag
  urlFlags : List String
  senderFlags : List String
  urlCount : ℕ
  flaggedURLs : List FlaggedURL
deriving DecidableEq

structure ScanResult where
  scanId : String
  score : ℤ
  riskLevel : String
  color : String
  category : String
  categoryIcon : String
  explanation : Explanation
  details : ScanDetails
  confidence : ℚ
  processingTime : ℕ
  timestamp : ℕ
deriving DecidableEq

/-- `emailData.sender ? emailData.sender.split("@")[1] : ""`, with the
`undefined` index-1 of an at-less address falling back to the `""`
default parameter of `analyzeText`. -/
def senderDomainOf (sender : String) : String :=
  if sender = "" then "" else (jsSplit sender '@').getD 1 ""

/-- `PhishAIEngine.analyze`: the full orchestration.  `getDom` is the host
URL parser behind `PhishGuardHelpers.getDomain`, `anonymize` the PII
redaction transform, and `env` the impure scan-id/clock environment. -/
def analyze (getDom : String → Option String) (anonymize : String → String)
    (env : ScanEnv) (emailData : ScanInput) : ScanResult :=
  let textResult := analyzeText anonymize emailData.body emailData.subject
    (senderDomainOf emailData.sender)
  let urlResult := analyzeAllURLs getDom emailData.urls
  let senderResult := analyzeSender emailData.sender emailData.displayName
  let weights := (getAdaptiveWeights emailData.tenantId).getD defaultWeights
  let finalScore := aggregateScore calibrateScore weights
    textResult.score urlResult.score senderResult.score
  let category := detectCategory emailData.body textResult urlResult senderResult
  let explanation := generateExplanation textResult urlResult senderResult category
  let riskLevel := formatRiskResult finalScore
  ⟨env.scanId, finalScore, riskLevel.label, riskLevel.color,
   (match category with | some c => c.label | none => "General"),
   (match category with | some c => c.icon | none => "📧"),
   explanation,
   ⟨textResult.score, urlResult.score, senderResult.score,
    textResult.flags, urlResult.flags, senderResult.flags,
    urlResult.urlCount, urlResult.flaggedURLs⟩,
   textResult.confidence, env.processingTime, env.timestamp⟩

/-! ## Helper lemmas -/

theorem analyzeURL_score_le (getDom : String → Option String) (url : String) :
    (analyzeURL getDom url).score ≤ 100 := by
  unfold analyzeURL
  split
  · decide
  · split
    · decide
    · split
      · decide
      · dsimp only
        exact Nat.min_le_right _ _

theorem analyzeSender_score_le (senderEmail displayName : String) :
    (analyzeSender senderEmail displayName).score ≤ 100 := by
  unfold analyzeSender
  split
  · decide
  · dsimp only
    split
    · decide
    · exact Nat.min_le_right _ _

theorem analyzeText_score_le (anonymize : String → String) (body subject senderDomain : String) :
    (analyzeText anonymize body subject senderDomain).score ≤ 100 := by
  unfold analyzeText
  dsimp only
  split
  · decide
  · exact Nat.min_le_right _ _

theorem foldl_max_le (l : List ℕ) (init bound : ℕ) (hinit : init ≤ bound)
    (h : ∀ x ∈ l, x ≤ bound) : l.foldl max init ≤ bound := by
  induction l generalizing init with
  | nil => exact hinit
  | cons a t ih =>
    exact ih (max init a) (max_le hinit (h a (by simp)))
      (fun x hx => h x (by simp [hx]))

/-! ## Claim theorems -/

/-- Claim C2: whenever the hostname parses and equals, or is a
dot-separated subdomain of, a trusted allowlisted domain, `analyzeURL`
short-circuits to score 0 with the single informational flag, regardless
of every other heuristic. -/
theorem c2_trusted_domain_short_circuit (getDom : String → Option String) (url domain : String)
    (hne : url ≠ "") (hdom : getDom url = some domain)
    (htrust : isTrustedDomain domain = true) :
    analyzeURL getDom url = ⟨0, ["Verified trusted domain"]⟩ := by
  simp [analyzeURL, hne, hdom, htrust]

/-- Witness for C2 at `https://mail.google.com/x`, a URL whose hostname is
a subdomain of the trusted `google.com` and whose path would fire no
heuristic anyway; the trusted result is forced by the theorem. -/
theorem c2_witness :
    "https://mail.google.com/x" ≠ "" ∧
      isTrustedDomain "mail.google.com" = true ∧
      analyzeURL (fun _ => some "mail.google.com") "https://mail.google.com/x" =
        ⟨0, ["Verified trusted domain"]⟩ :=
  ⟨by decide, by decide,
   c2_trusted_domain_short_circuit (fun _ => some "mail.google.com")
     "https://mail.google.com/x" "mail.google.com" (by decide) rfl (by decide)⟩

/-- Claim C10: a missing/empty URL yields score 0 with no flags; the
50-point invalid-URL penalty fires exactly for non-empty URLs whose
hostname extraction fails. -/
theorem c10_empty_and_invalid_url (getDom : String → Option String) (url : String) :
    (url = "" → analyzeURL getDom url = ⟨0, []⟩) ∧
      (url ≠ "" → getDom url = none →
        analyzeURL getDom url = ⟨50, ["Invalid or malformed URL"]⟩) := by
  constructor
  · intro h
    simp [analyzeURL, h]
  · intro h hn
    simp [analyzeURL, h, hn]

theorem c10_witness :
    analyzeURL (fun _ => none) "" = ⟨0, []⟩ ∧
      analyzeURL (fun _ => none) "notaurl" = ⟨50, ["Invalid or malformed URL"]⟩ :=
  ⟨(c10_empty_and_invalid_url (fun _ => none) "").1 rfl,
   (c10_empty_and_invalid_url (fun _ => none) "notaurl").2 (by decide) rfl⟩

/-- Claim C9: two calls of `analyze` on the same input, differing only in
the impure scan-id/clock environment (the classifier hook of the shipped
engine is the deterministic zero stub), agree on every field except
`scanId`, `processingTime` and `timestamp`. -/
theorem c9_determinism (getDom : String → Option String) (anonymize : String → String)
    (env1 env2 : ScanEnv) (input : ScanInput) :
    (analyze getDom anonymize env1 input).score = (analyze getDom anonymize env2 input).score ∧
    (analyze getDom anonymize env1 input).riskLevel = (analyze getDom anonymize env2 input).riskLevel ∧
    (analyze getDom anonymize env1 input).color = (analyze getDom anonymize env2 input).color ∧
    (analyze getDom anonymize env1 input).category = (analyze getDom anonymize env2 input).category ∧
    (analyze getDom anonymize env1 input).categoryIcon = (analyze getDom anonymize env2 input).categoryIcon ∧
    (analyze getDom anonymize env1 input).explanation = (analyze getDom anonymize env2 input).explanation ∧
    (analyze getDom anonymize env1 input).details = (analyze getDom anonymize env2 input).details ∧
    (analyze getDom anonymize env1 input).confidence = (analyze getDom anonymize env2 input).confidence :=
  ⟨rfl, rfl, rfl, rfl, rfl, rfl, rfl, rfl⟩

theorem urlFold_worst_le (getDom : String → Option String) (urls : List String)
    (acc : URLAccum) (h : acc.worst ≤ 100) :
    (urls.foldl (urlStep getDom) acc).worst ≤ 100 := by
  induction urls generalizing acc with
  | nil => exact h
  | cons u t ih =>
    refine ih _ ?_
    have hs := analyzeURL_score_le getDom u
    simp only [urlStep]
    split <;> omega

theorem analyzeAllURLs_score_le (getDom : String → Option String) (urls : List String) :
    (analyzeAllURLs getDom urls).score ≤ 100 := by
  unfold analyzeAllURLs
  split
  · decide
  · exact urlFold_worst_le getDom urls ⟨0, [], []⟩ (by decide)

theorem aggregateScore_default_bounds (t u s : ℕ) (ht : t ≤ 100) (hu : u ≤ 100) (hs : s ≤ 100) :
    0 ≤ aggregateScore calibrateScore defaultWeights t u s ∧
      aggregateScore calibrateScore defaultWeights t u s ≤ 100 := by
  unfold aggregateScore calibrateScore defaultWeights jsRound
  dsimp only
  constructor
  · exact Int.floor_nonneg.mpr (by positivity)
  · have hq : ((t : ℚ) / 100 * 0.35 + (u : ℚ) / 100 * 0.40 + (s : ℚ) / 100 * 0.25) * 100 + 1 / 2
        < (101 : ℚ) := by
      have ht' : (t : ℚ) ≤ 100 := by exact_mod_cast ht
      have hu' : (u : ℚ) ≤ 100 := by exact_mod_cast hu
      have hs' : (s : ℚ) ≤ 100 := by exact_mod_cast hs
      nlinarith
    have := Int.floor_lt.mpr (by push_cast; linarith : ((t : ℚ) / 100 * 0.35 +
      (u : ℚ) / 100 * 0.40 + (s : ℚ) / 100 * 0.25) * 100 + 1 / 2 < ((101 : ℤ) : ℚ))
    omega

/-- Claim C1: every component analyzer returns a score in `[0,100]` (the
lower bound holds by the `Nat` score type) and the final aggregated score
of `analyze` lies in `[0,100]` as well, for every input, hostname parser,
redaction transform and scan environment. -/
theorem c1_scores_in_range (anonymize : String → String) (body subject senderDomain : String)
    (getDom : String → Option String) (urls : List String) (senderEmail displayName : String)
    (env : ScanEnv) (input : ScanInput) :
    (analyzeText anonymize body subject senderDomain).score ≤ 100 ∧
    (analyzeAllURLs getDom urls).score ≤ 100 ∧
    (analyzeSender senderEmail displayName).score ≤ 100 ∧
    0 ≤ (analyze getDom anonymize env input).score ∧
    (analyze getDom anonymize env input).score ≤ 100 := by
  have heq : (analyze getDom anonymize env input).score =
      aggregateScore calibrateScore defaultWeights
        (analyzeText anonymize input.body input.subject (senderDomainOf input.sender)).score
        (analyzeAllURLs getDom input.urls).score
        (analyzeSender input.sender input.displayName).score := rfl
  have hb := aggregateScore_default_bounds _ _ _
    (analyzeText_score_le anonymize input.body input.subject (senderDomainOf input.sender))
    (analyzeAllURLs_score_le getDom input.urls)
    (analyzeSender_score_le input.sender input.displayName)
  exact ⟨analyzeText_score_le anonymize body subject senderDomain,
    analyzeAllURLs_score_le getDom urls,
    analyzeSender_score_le senderEmail displayName,
    heq ▸ hb.1, heq ▸ hb.2⟩

theorem length_ite_le {α : Type} (c : Prop) [Decidable c] (a : α) :
    (if c then [a] else []).length ≤ 1 := by
  split <;> simp

theorem length_chain10_le (c1 c2 c3 c4 c5 c6 c7 c8 c9 c10 : Prop)
    [Decidable c1] [Decidable c2] [Decidable c3] [Decidable c4] [Decidable c5]
    [Decidable c6] [Decidable c7] [Decidable c8] [Decidable c9] [Decidable c10]
    (f1 f2 f3 f4 f5 f6 f7 f8 f9 f10 : TextFlag) :
    (if c1 then [f1] else []).length + (if c2 then [f2] else []).length +
      (if c3 then [f3] else []).length + (if c4 then [f4] else []).length +
      (if c5 then [f5] else []).length + (if c6 then [f6] else []).length +
      (if c7 then [f7] else []).length + (if c8 then [f8] else []).length +
      (if c9 then [f9] else []).length + (if c10 then [f10] else []).length ≤ 10 := by
  have h1 := length_ite_le c1 f1
  have h2 := length_ite_le c2 f2
  have h3 := length_ite_le c3 f3
  have h4 := length_ite_le c4 f4
  have h5 := length_ite_le c5 f5
  have h6 := length_ite_le c6 f6
  have h7 := length_ite_le c7 f7
  have h8 := length_ite_le c8 f8
  have h9 := length_ite_le c9 f9
  have h10 := length_ite_le c10 f10
  omega

/-- Claim C5: `analyzeText` reports a confidence equal to the number of
fired checks (one flag per fired check) divided by the fixed check count
10, and that confidence lies in `[0,1]`: the classifier stub returns 0,
so the `NLP_MODEL` flag can never fire, leaving at most ten flags. -/
theorem c5_confidence (anonymize : String → String) (body subject senderDomain : String) :
    (analyzeText anonymize body subject senderDomain).confidence =
      ((analyzeText anonymize body subject senderDomain).flags.length : ℚ) / 10 ∧
    0 ≤ (analyzeText anonymize body subject senderDomain).confidence ∧
    (analyzeText anonymize body subject senderDomain).confidence ≤ 1 := by
  unfold analyzeText
  dsimp only
  split
  · norm_num
  · refine ⟨rfl, by positivity, ?_⟩
    rw [div_le_one (by norm_num)]
    have hten : ((10 : ℕ) : ℚ) = 10 := by norm_num
    rw [← hten, Nat.cast_le]
    have hF : (decide ((3 : ℚ) / 5 < nlpPhishingScore
        (jsToLower (anonymize subject ++ " " ++ anonymize body)))) = false := by
      rw [nlpPhishingScore]
      exact decide_eq_false (by norm_num)
    simp only [List.length_append, hF, Bool.false_eq_true, if_false, List.length_nil,
      Nat.zero_add]
    exact length_chain10_le _ _ _ _ _ _ _ _ _ _ _ _ _ _ _ _ _ _ _ _


theorem foldl_urlStep_spec (getDom : String → Option String) (urls : List String)
    (acc : URLAccum) :
    (urls.foldl (urlStep getDom) acc).worst =
      (urls.map (fun u => (analyzeURL getDom u).score)).foldl max acc.worst ∧
    (urls.foldl (urlStep getDom) acc).allFlags =
      acc.allFlags ++ flatMapL (fun u => (analyzeURL getDom u).flags) urls ∧
    (urls.foldl (urlStep getDom) acc).flagged =
      acc.flagged ++ (urls.filter (fun u => decide (0 < (analyzeURL getDom u).score))).map
        (fun u => ⟨truncateURL u 60, (analyzeURL getDom u).score, (analyzeURL getDom u).flags⟩) := by
  induction urls generalizing acc with
  | nil => simp [flatMapL]
  | cons u t ih =>
    obtain ⟨ihw, ihf, ihd⟩ := ih (urlStep getDom acc u)
    refine ⟨?_, ?_, ?_⟩
    · rw [List.foldl_cons, ihw, List.map_cons, List.foldl_cons]
      have : (urlStep getDom acc u).worst = max acc.worst (analyzeURL getDom u).score := by
        simp only [urlStep]
        rcases Nat.lt_or_ge acc.worst (analyzeURL getDom u).score with h | h
        · rw [if_pos h, Nat.max_eq_right (Nat.le_of_lt h)]
        · rw [if_neg (Nat.not_lt.mpr h), Nat.max_eq_left h]
      rw [this]
    · rw [List.foldl_cons, ihf]
      have : (urlStep getDom acc u).allFlags = acc.allFlags ++ (analyzeURL getDom u).flags := rfl
      rw [this, flatMapL, List.append_assoc]
    · rw [List.foldl_cons, ihd]
      have : (urlStep getDom acc u).flagged = acc.flagged ++
          (if 0 < (analyzeURL getDom u).score then
            [⟨truncateURL u 60, (analyzeURL getDom u).score, (analyzeURL getDom u).flags⟩]
          else []) := by
        simp only [urlStep]
        split <;> simp
      rw [this, List.filter_cons, List.append_assoc]
      by_cases h : 0 < (analyzeURL getDom u).score <;> simp [h]

/-- Claim C6: `analyzeAllURLs` aggregates by taking the MAXIMUM of the
per-URL scores, unions all fired flags with first-occurrence
deduplication, records a display-truncated entry exactly for the URLs
whose own score is positive, and reports the total URL count (0 for an
empty or missing list, the two being indistinguishable to the source). -/
theorem c6_url_aggregation (getDom : String → Option String) (urls : List String) :
    (analyzeAllURLs getDom urls).score =
      (urls.map (fun u => (analyzeURL getDom u).score)).foldl max 0 ∧
    (analyzeAllURLs getDom urls).flags =
      jsSetDedup (flatMapL (fun u => (analyzeURL getDom u).flags) urls) ∧
    (analyzeAllURLs getDom urls).urlCount = urls.length ∧
    (analyzeAllURLs getDom urls).flaggedURLs =
      (urls.filter (fun u => decide (0 < (analyzeURL getDom u).score))).map
        (fun u => ⟨truncateURL u 60, (analyzeURL getDom u).score, (analyzeURL getDom u).flags⟩) := by
  unfold analyzeAllURLs
  split
  · next h => subst h; exact ⟨rfl, rfl, rfl, rfl⟩
  · dsimp only
    obtain ⟨hw, hf, hd⟩ := foldl_urlStep_spec getDom urls ⟨0, [], []⟩
    exact ⟨hw, by rw [hf]; rfl, rfl, by rw [hd]; rfl⟩

/-- Claim C8: with any per-component monotone calibration (the shipped
fallback is the identity) and non-negative weights, raising any component
raw score — here all three simultaneously, which subsumes raising a
single one — never lowers the aggregated final score computed by the
Step-4 formula of `analyze`. -/
theorem c8_aggregation_monotone (calib : ℚ → String → ℚ) (w : Weights)
    (hT : Monotone (fun q => calib q "TEXT")) (hU : Monotone (fun q => calib q "URL"))
    (hS : Monotone (fun q => calib q "SENDER"))
    (hwT : 0 ≤ w.TEXT) (hwU : 0 ≤ w.URL) (hwS : 0 ≤ w.SENDER)
    (t t' u u' s s' : ℕ) (ht : t ≤ t') (hu : u ≤ u') (hs : s ≤ s') :
    aggregateScore calib w t u s ≤ aggregateScore calib w t' u' s' := by
  unfold aggregateScore jsRound
  dsimp only
  apply Int.floor_mono
  have c1 : calib ((t : ℚ) / 100) "TEXT" ≤ calib ((t' : ℚ) / 100) "TEXT" :=
    hT (by have : (t : ℚ) ≤ (t' : ℚ) := by exact_mod_cast ht
           linarith)
  have c2 : calib ((u : ℚ) / 100) "URL" ≤ calib ((u' : ℚ) / 100) "URL" :=
    hU (by have : (u : ℚ) ≤ (u' : ℚ) := by exact_mod_cast hu
           linarith)
  have c3 : calib ((s : ℚ) / 100) "SENDER" ≤ calib ((s' : ℚ) / 100) "SENDER" :=
    hS (by have : (s : ℚ) ≤ (s' : ℚ) := by exact_mod_cast hs
           linarith)
  have hsum := add_le_add (add_le_add (mul_le_mul_of_nonneg_right c1 hwT)
    (mul_le_mul_of_nonneg_right c2 hwU)) (mul_le_mul_of_nonneg_right c3 hwS)
  have := mul_le_mul_of_nonneg_right hsum (by norm_num : (0 : ℚ) ≤ 100)
  linarith

/-- Witness for C8: the identity calibration of the shipped engine, the
default weights, and a raised text score. -/
theorem c8_witness :
    aggregateScore calibrateScore defaultWeights 10 20 30 ≤
      aggregateScore calibrateScore defaultWeights 80 20 30 :=
  c8_aggregation_monotone calibrateScore defaultWeights
    (fun _ _ h => h) (fun _ _ h => h) (fun _ _ h => h)
    (by norm_num [defaultWeights]) (by norm_num [defaultWeights]) (by norm_num [defaultWeights])
    10 80 20 20 30 30 (by norm_num) (by norm_num) (by norm_num)

/-- Claim C4: a `CategoryMatch` is returned only when the best category's
accumulated score reaches the effective threshold — its `minMatch`
(falsy-defaulted to 2) decremented by 1 when the URL or sender analyzer
produced at least one flag, the decrement floored at 0 by natural
subtraction — or when exactly one keyword matched (score 1 under the
default unit weights) and the text score alone is at least 50; otherwise
the scan resolves to the default "General" category with the generic
icon. -/
theorem c4_category_threshold :
    (∀ (text : String) (tr : TextResult) (ur : URLAggregate) (sr : SenderResult)
        (cm : CategoryMatch), detectCategory text tr ur sr = some cm →
      (if ur.flags ≠ [] ∨ sr.flags ≠ [] then jsOrNat cm.minMatch 2 - 1 else jsOrNat cm.minMatch 2)
          ≤ cm.matchScore ∨ (cm.matchScore = 1 ∧ 50 ≤ tr.score)) ∧
    (∀ (getDom : String → Option String) (anonymize : String → String) (env : ScanEnv)
        (input : ScanInput),
      detectCategory input.body
          (analyzeText anonymize input.body input.subject (senderDomainOf input.sender))
          (analyzeAllURLs getDom input.urls)
          (analyzeSender input.sender input.displayName) = none →
      (analyze getDom anonymize env input).category = "General" ∧
      (analyze getDom anonymize env input).categoryIcon = "📧") := by
  constructor
  · intro text tr ur sr cm hsome
    unfold detectCategory at hsome
    split at hsome
    · exact absurd hsome (by simp)
    · dsimp only at hsome
      split at hsome
      · exact absurd hsome (by simp)
      · next b hb =>
        by_cases hx : (!ur.flags.isEmpty || !sr.flags.isEmpty) = true
        · rw [if_pos hx] at hsome
          have hprop : ur.flags ≠ [] ∨ sr.flags ≠ [] := by
            simpa [Bool.or_eq_true, Bool.not_eq_true', List.isEmpty_eq_false] using hx
          split at hsome
          · next hcond =>
            rw [Option.some_inj] at hsome
            subst hsome
            dsimp only
            rw [if_pos hprop]
            rw [Bool.or_eq_true, Bool.and_eq_true, decide_eq_true_eq, decide_eq_true_eq,
              beq_iff_eq] at hcond
            exact hcond
          · exact absurd hsome (by simp)
        · rw [if_neg hx] at hsome
          have hprop : ¬(ur.flags ≠ [] ∨ sr.flags ≠ []) := by
            simp only [Bool.or_eq_true, Bool.not_eq_true', List.isEmpty_eq_false] at hx
            push_neg at hx ⊢
            exact ⟨hx.1, hx.2⟩
          split at hsome
          · next hcond =>
            rw [Option.some_inj] at hsome
            subst hsome
            dsimp only
            rw [if_neg hprop]
            rw [Bool.or_eq_true, Bool.and_eq_true, decide_eq_true_eq, decide_eq_true_eq,
              beq_iff_eq] at hcond
            exact hcond
          · exact absurd hsome (by simp)
  · intro getDom anonymize env input hnone
    constructor
    · show (match detectCategory input.body
          (analyzeText anonymize input.body input.subject (senderDomainOf input.sender))
          (analyzeAllURLs getDom input.urls)
          (analyzeSender input.sender input.displayName) with
        | some c => c.label | none => "General") = "General"
      rw [hnone]
    · show (match detectCategory input.body
          (analyzeText anonymize input.body input.subject (senderDomainOf input.sender))
          (analyzeAllURLs getDom input.urls)
          (analyzeSender input.sender input.displayName) with
        | some c => c.icon | none => "📧") = "📧"
      rw [hnone]

/-- The concrete category match produced on the text `"bank account"`
with no corroborating signals (used by the C4 witness). -/
def bankMatch : CategoryMatch :=
  ⟨"Banking/Financial Scam", "🏦",
   ["bank", "account", "credit", "debit", "transaction", "payment", "transfer"], [], none, none,
   ["bank", "account"], 2, ((2 : ℕ) : ℚ) / ((7 : ℕ) : ℚ), ⟨0, 0, 0, [], []⟩⟩

set_option maxRecDepth 8000 in
theorem c4_witness :
    ((if (⟨0, [], 0, []⟩ : URLAggregate).flags ≠ [] ∨ (⟨0, []⟩ : SenderResult).flags ≠ [] then
        jsOrNat bankMatch.minMatch 2 - 1 else jsOrNat bankMatch.minMatch 2) ≤ bankMatch.matchScore ∨
      (bankMatch.matchScore = 1 ∧ 50 ≤ (⟨0, [], 0⟩ : TextResult).score)) ∧
    ((analyze (fun _ => none) id ⟨"id", 0, 0⟩ ⟨"", "", "", "", [], ""⟩).category = "General" ∧
     (analyze (fun _ => none) id ⟨"id", 0, 0⟩ ⟨"", "", "", "", [], ""⟩).categoryIcon = "📧") :=
  ⟨c4_category_threshold.1 "bank account" ⟨0, [], 0⟩ ⟨0, [], 0, []⟩ ⟨0, []⟩ bankMatch rfl,
   c4_category_threshold.2 (fun _ => none) id ⟨"id", 0, 0⟩ ⟨"", "", "", "", [], ""⟩ rfl⟩

theorem jsIncludesL_nil (l : List Char) : jsIncludesL [] l = true := by
  induction l with
  | nil => rfl
  | cons c t ih => simp [jsIncludesL, List.isPrefixOf]

theorem jsIncludesL_append_right (n h t : List Char) (hh : jsIncludesL n h = true) :
    jsIncludesL n (h ++ t) = true := by
  induction h with
  | nil =>
    simp only [jsIncludesL, List.isEmpty_iff] at hh
    subst hh
    exact jsIncludesL_nil t
  | cons c h' ih =>
    simp only [jsIncludesL, Bool.or_eq_true] at hh ⊢
    rcases hh with hp | hrest
    · left
      rw [List.isPrefixOf_iff_prefix] at hp ⊢
      exact hp.trans (List.prefix_append _ t)
    · right
      exact ih hrest

theorem jsIncludes_left_append (a b n : String) (h : jsIncludes a n = true) :
    jsIncludes (a ++ b) n = true := by
  unfold jsIncludes at h ⊢
  rw [String.data_append]
  exact jsIncludesL_append_right _ _ _ h

theorem generateExplanation_summary (tr : TextResult) (ur : URLAggregate)
    (sr : SenderResult) (cat : Option CategoryMatch) :
    (generateExplanation tr ur sr cat).summary =
      if tr.flags.length + ur.flags.length + sr.flags.length = 0 then
        "✅ SAFE: No scam indicators detected."
      else
        explanationSummary cat
          (jsRound ((tr.score : ℚ) * 0.4 + (ur.score : ℚ) * 0.4 + (sr.score : ℚ) * 0.2) +
            (((cat.map (fun c => c.severity.getD 0)).getD 0 : ℕ) : ℤ) * 10)
          (decide (20 < ur.score) || decide (15 < sr.score)) := by
  unfold generateExplanation
  dsimp only
  split <;> rfl

theorem explanationSummary_high (cat : Option CategoryMatch) (adj : ℤ) (strong : Bool)
    (h1 : 70 ≤ adj) (h2 : strong = true) :
    explanationSummary cat adj strong =
      "⚠️ HIGH RISK: " ++
        ((match cat with | some c => c.label | none => "Potential Scam") ++ " Detected") := by
  unfold explanationSummary
  rw [if_pos]
  simp [h1, h2]

theorem explanationSummary_caution_no_corr (cat : Option CategoryMatch) (adj : ℤ) (strong : Bool)
    (h1 : 70 ≤ adj) (h2 : strong = false) :
    explanationSummary cat adj strong =
      "⚡ CAUTION: Suspicious text patterns detected, but no strong sender/URL evidence" := by
  unfold explanationSummary
  rw [if_neg (by simp [h2]), if_pos (by simp [h1])]

theorem explanationSummary_no_high_risk (cat : Option CategoryMatch) (adj : ℤ) (strong : Bool)
    (h1 : ¬(70 ≤ adj ∧ strong = true)) :
    jsIncludes (explanationSummary cat adj strong) "HIGH RISK" = false := by
  unfold explanationSummary
  rw [if_neg (by simp only [Bool.and_eq_true, decide_eq_true_eq]; exact fun hc => h1 ⟨hc.1, hc.2⟩)]
  split
  · decide
  · split <;> decide

theorem explanationSummary_contains_high_risk (cat : Option CategoryMatch) (adj : ℤ)
    (strong : Bool) (h1 : 70 ≤ adj) (h2 : strong = true) :
    jsIncludes (explanationSummary cat adj strong) "HIGH RISK" = true := by
  rw [explanationSummary_high cat adj strong h1 h2]
  exact jsIncludes_left_append _ _ _ (by decide)

/-- Claim C7: the explanation summary contains "HIGH RISK" exactly when
some flag exists, the blended score `round(0.4*text + 0.4*url +
0.2*sender)` boosted by `severity * 10` reaches 70, AND a strong
non-text signal is present (url score > 20 or sender score > 15);
when the blended+boosted score reaches 70 on text evidence alone the
summary is the fixed caution/no-corroboration message, never high risk. -/
theorem c7_high_risk_requires_corroboration (tr : TextResult) (ur : URLAggregate)
    (sr : SenderResult) (cat : Option CategoryMatch) :
    (jsIncludes (generateExplanation tr ur sr cat).summary "HIGH RISK" = true ↔
      (tr.flags.length + ur.flags.length + sr.flags.length ≠ 0 ∧
       70 ≤ jsRound ((tr.score : ℚ) * 0.4 + (ur.score : ℚ) * 0.4 + (sr.score : ℚ) * 0.2) +
         (((cat.map (fun c => c.severity.getD 0)).getD 0 : ℕ) : ℤ) * 10 ∧
       (20 < ur.score ∨ 15 < sr.score))) ∧
    (tr.flags.length + ur.flags.length + sr.flags.length ≠ 0 →
     70 ≤ jsRound ((tr.score : ℚ) * 0.4 + (ur.score : ℚ) * 0.4 + (sr.score : ℚ) * 0.2) +
       (((cat.map (fun c => c.severity.getD 0)).getD 0 : ℕ) : ℤ) * 10 →
     ¬(20 < ur.score ∨ 15 < sr.score) →
     (generateExplanation tr ur sr cat).summary =
       "⚡ CAUTION: Suspicious text patterns detected, but no strong sender/URL evidence") := by
  rw [generateExplanation_summary]
  by_cases hz : tr.flags.length + ur.flags.length + sr.flags.length = 0
  · rw [if_pos hz]
    exact ⟨iff_of_false (by decide) (fun h => h.1 hz), fun h => absurd hz h⟩
  · rw [if_neg hz]
    by_cases hadj : 70 ≤ jsRound ((tr.score : ℚ) * 0.4 + (ur.score : ℚ) * 0.4 +
        (sr.score : ℚ) * 0.2) + (((cat.map (fun c => c.severity.getD 0)).getD 0 : ℕ) : ℤ) * 10
    · by_cases hstr : 20 < ur.score ∨ 15 < sr.score
      · have hsb : (decide (20 < ur.score) || decide (15 < sr.score)) = true := by
          rcases hstr with h | h <;> simp [h]
        exact ⟨iff_of_true (explanationSummary_contains_high_risk _ _ _ hadj hsb)
          ⟨hz, hadj, hstr⟩, fun _ _ hns => absurd hstr hns⟩
      · have hsb : (decide (20 < ur.score) || decide (15 < sr.score)) = false := by
          push_neg at hstr
          simp [Nat.not_lt.mpr hstr.1, Nat.not_lt.mpr hstr.2]
        have hf := explanationSummary_no_high_risk cat
          (jsRound ((tr.score : ℚ) * 0.4 + (ur.score : ℚ) * 0.4 + (sr.score : ℚ) * 0.2) +
            (((cat.map (fun c => c.severity.getD 0)).getD 0 : ℕ) : ℤ) * 10)
          (decide (20 < ur.score) || decide (15 < sr.score))
          (fun hc => by rw [hsb] at hc; exact Bool.false_ne_true hc.2)
        exact ⟨iff_of_false (by rw [hf]; simp) (fun h => hstr h.2.2),
          fun _ _ _ => explanationSummary_caution_no_corr _ _ _ hadj hsb⟩
    · have hf := explanationSummary_no_high_risk cat _
        (decide (20 < ur.score) || decide (15 < sr.score)) (fun hc => hadj hc.1)
      exact ⟨iff_of_false (by rw [hf]; simp) (fun h => hadj h.2.1),
        fun _ ha _ => absurd ha hadj⟩

def trW : TextResult := ⟨100, [⟨"URGENCY", "u"⟩], 0⟩

def urW : URLAggregate := ⟨20, [], 0, []⟩

def srW : SenderResult := ⟨15, []⟩

def catW : Option CategoryMatch := some ⟨"X", "x", [], [], some 3, none, [], 0, 0, ⟨0, 0, 0, [], []⟩⟩

theorem c7_witness :
    (generateExplanation trW urW srW catW).summary =
      "⚡ CAUTION: Suspicious text patterns detected, but no strong sender/URL evidence" :=
  (c7_high_risk_requires_corroboration trW urW srW catW).2
    (by decide)
    (by have h51 : jsRound ((100 : ℚ) * 0.4 + (20 : ℚ) * 0.4 + (15 : ℚ) * 0.2) = 51 := by
          unfold jsRound
          rw [Int.floor_eq_iff]
          norm_num
        show (70 : ℤ) ≤ jsRound (((100 : ℕ) : ℚ) * 0.4 + ((20 : ℕ) : ℚ) * 0.4 +
          ((15 : ℕ) : ℚ) * 0.2) + (((3 : ℕ) : ℤ)) * 10
        push_cast
        rw [h51]
        norm_num)
    (by decide)

theorem checkTyposquattingGo_iff (base : String) (l : List (String × List String)) :
    (checkTyposquattingGo base l).1 = true ↔
      ∃ p ∈ l, (∃ f ∈ p.2, jsIncludes base f = true) ∨
        (jsIncludes base (strTake 3 p.1) = true ∧
         1 ≤ levenshteinDistance base p.1 ∧ levenshteinDistance base p.1 ≤ 2) := by
  induction l with
  | nil => simp [checkTyposquattingGo]
  | cons p rest ih =>
    obtain ⟨real, fakes⟩ := p
    unfold checkTyposquattingGo
    split
    · next h =>
      simp only [List.any_eq_true] at h
      simp only [true_iff]
      exact ⟨(real, fakes), List.mem_cons_self _ _, Or.inl h⟩
    · next h =>
      split
      · next h2 =>
        rw [Bool.and_eq_true, Bool.and_eq_true, decide_eq_true_eq, decide_eq_true_eq] at h2
        simp only [true_iff]
        exact ⟨(real, fakes), List.mem_cons_self _ _, Or.inr ⟨h2.1, h2.2.1, h2.2.2⟩⟩
      · next h2 =>
        rw [ih]
        constructor
        · rintro ⟨q, hq, hc⟩
          exact ⟨q, List.mem_cons_of_mem _ hq, hc⟩
        · rintro ⟨q, hq, hc⟩
          rcases List.mem_cons.mp hq with rfl | hq'
          · exfalso
            rcases hc with hlit | ⟨hinc, hd1, hd2⟩
            · exact h (by simpa [List.any_eq_true] using hlit)
            · exact h2 (by rw [Bool.and_eq_true, Bool.and_eq_true,
                decide_eq_true_eq, decide_eq_true_eq]; exact ⟨hinc, hd1, hd2⟩)
          · exact ⟨q, hq', hc⟩

theorem typoMsg_head (t2 : String) :
    ("Possible typosquatting: looks like \"" ++ t2 ++ "\"").data.head? = some 'P' := by
  rw [String.data_append, String.data_append]
  rfl

theorem typoMsg_ne (t2 s : String) (h : s.data.head? ≠ some 'P') :
    ("Possible typosquatting: looks like \"" ++ t2 ++ "\"") ≠ s :=
  fun he => h (he ▸ typoMsg_head t2)

theorem typoMsg_ne_append (t2 lit t : String) (c : Char)
    (hc : lit.data.head? = some c) (hne : c ≠ 'P') :
    ("Possible typosquatting: looks like \"" ++ t2 ++ "\"") ≠ lit ++ t := by
  intro he
  have h1 := typoMsg_head t2
  rw [he, String.data_append] at h1
  cases hlit : lit.data with
  | nil => rw [hlit] at hc; exact Option.noConfusion hc
  | cons a rest =>
    rw [hlit] at h1 hc
    simp only [List.cons_append, List.head?_cons, Option.some_inj] at h1 hc
    exact hne (hc ▸ h1)

theorem mem_ite_singleton {α : Type} (c : Prop) [Decidable c] (a x : α) :
    (x ∈ if c then [a] else []) ↔ (c ∧ x = a) := by
  split
  · next h => simp [h]
  · next h => simp [h]

theorem analyzeURL_typosquat_flag_iff (getDom : String → Option String) (url domain : String)
    (h1 : url ≠ "") (h2 : getDom url = some domain)
    (h3 : isTrustedDomain domain = false) :
    (("Possible typosquatting: looks like \"" ++ (checkTyposquatting domain).2 ++ "\"") ∈
        (analyzeURL getDom url).flags ↔ (checkTyposquatting domain).1 = true) := by
  unfold analyzeURL
  rw [if_neg h1, h2]
  dsimp only
  rw [if_neg (by rw [h3]; exact Bool.false_ne_true)]
  dsimp only
  simp only [List.mem_append, mem_ite_singleton]
  constructor
  · rintro ((((((((⟨_, he⟩ | ⟨_, he⟩) | ⟨_, he⟩) | ⟨ht, _⟩) | ⟨_, he⟩) | ⟨_, he⟩) |
      ⟨_, he⟩) | ⟨_, he⟩) | ⟨_, he⟩)
    · exact absurd he (typoMsg_ne _ _ (by decide))
    · exact absurd he (typoMsg_ne_append _ _ _ 'S' rfl (by decide))
    · exact absurd he (typoMsg_ne_append _ _ _ 'E' (by rw [String.data_append]; rfl) (by decide))
    · exact ht
    · exact absurd he (typoMsg_ne _ _ (by decide))
    · exact absurd he (typoMsg_ne _ _ (by decide))
    · exact absurd he (typoMsg_ne _ _ (by decide))
    · exact absurd he (typoMsg_ne _ _ (by decide))
    · exact absurd he (typoMsg_ne _ _ (by decide))
  · intro ht
    exact Or.inl (Or.inl (Or.inl (Or.inl (Or.inl (Or.inr ⟨ht, trivial⟩)))))

/-- Counterexample to claim C3 as stated: the claim's final clause says a
domain at edit distance 0 from the brand (the exact brand name) is never
flagged as typosquat, but the typosquat table lists the truncation
`"googl"` as a known fake variant of `"google"`, and literal containment
is checked first: the non-trusted domain `google.co` has base label
`"google"`, at distance 0 from the brand, yet `analyzeURL` adds exactly
the +35 typosquat penalty and its flag. -/
theorem c3_counterexample :
    (analyzeURL (fun u => if u = "http://google.co/" then some "google.co" else none)
      "http://google.co/").score = 35 ∧
    (analyzeURL (fun u => if u = "http://google.co/" then some "google.co" else none)
      "http://google.co/").flags = ["Possible typosquatting: looks like \"google\""] ∧
    levenshteinDistance (typosquatBase "google.co") "google" = 0 := by
  refine ⟨?_, ?_, ?_⟩ <;> decide

/-- Amended claim C3: for non-trusted domains with a parsed hostname, the
+35 typosquat penalty (observable as its flag) fires exactly when some
reference brand either has a known fake variant literally contained in
the domain's base part, or the base part contains the brand's first three
characters and the dynamic-programming edit distance between base part
and brand is 1 or 2.  Distance 0 is excluded only from the edit-distance
branch; the exact brand can still be flagged through literal containment
of a truncated fake variant (see the counterexample). -/
theorem c3_amended_typosquat_characterization :
    (∀ domain : String, (checkTyposquatting domain).1 = true ↔
      ∃ p ∈ TYPOSQUAT_MAP, (∃ f ∈ p.2, jsIncludes (typosquatBase domain) f = true) ∨
        (jsIncludes (typosquatBase domain) (strTake 3 p.1) = true ∧
         1 ≤ levenshteinDistance (typosquatBase domain) p.1 ∧
         levenshteinDistance (typosquatBase domain) p.1 ≤ 2)) ∧
    (∀ (getDom : String → Option String) (url domain : String), url ≠ "" →
      getDom url = some domain → isTrustedDomain domain = false →
      (("Possible typosquatting: looks like \"" ++ (checkTyposquatting domain).2 ++ "\"") ∈
          (analyzeURL getDom url).flags ↔ (checkTyposquatting domain).1 = true)) :=
  ⟨fun domain => checkTyposquattingGo_iff (typosquatBase domain) TYPOSQUAT_MAP,
   analyzeURL_typosquat_flag_iff⟩

theorem c3_witness :
    ("Possible typosquatting: looks like \"" ++ (checkTyposquatting "google.co").2 ++ "\"") ∈
      (analyzeURL (fun u => if u = "http://google.co/" then some "google.co" else none)
        "http://google.co/").flags :=
  (c3_amended_typosquat_characterization.2
      (fun u => if u = "http://google.co/" then some "google.co" else none)
      "http://google.co/" "google.co" (by decide) (by decide) (by decide)).mpr (by decide)
